import Mathlib

/-!
Verification of the hot-coffee order service (package `service`, order
lifecycle + inventory reservation engine) against its specification.

The Go source is shallowly embedded: Go structs become Lean structures,
`float64` quantities become `ℚ` (exact arithmetic over the same field
values), `int` quantities become `Int`, Go maps become association lists
with insert-or-replace semantics, and the repository layer (package `dal`,
whose code is not part of the analysed sources) is modelled from the
specification's collaborator contracts as pure state on a `State` record.
Service operations that persist data return `State × Option ServiceError`:
the returned state is exactly what the repositories hold after the call,
so atomicity claims are about the returned state, not built in by fiat.
-/

/-- Line item of an order: Go `models.OrderItem` (`ProductID`, `Quantity int`). -/
structure OrderItem where
  productID : String
  quantity : Int
  deriving DecidableEq, Repr

/-- Go `models.Order` (`ID`, `CustomerName`, `Items`, `Status`, `CreatedAt`). -/
structure Order where
  id : String
  customerName : String
  items : List OrderItem
  status : String
  createdAt : String
  deriving DecidableEq, Repr

/-- One ingredient requirement of a recipe: Go `models.MenuItemIngredient`
(`IngredientID`, `Quantity float64`, embedded here as `ℚ`). -/
structure MenuItemIngredient where
  ingredientID : String
  quantity : ℚ
  deriving DecidableEq, Repr

/-- Go `models.MenuItem`: a product with its recipe. -/
structure MenuItem where
  id : String
  ingredients : List MenuItemIngredient
  deriving DecidableEq, Repr

/-- Go `models.InventoryItem`: one ledger entry. -/
structure InventoryItem where
  ingredientID : String
  quantity : ℚ
  unit : String
  deriving DecidableEq, Repr

/-- The service-layer error values referenced by `order_service.go`
(`ErrNotValidOrderID`, `ErrOrderProductNotFound`, ...), plus
`ErrMenuItemNotFound` for the `dal` menu repository's not-found error
returned by `GetMenuItemById` inside the reservation loop. -/
inductive ServiceError where
  | ErrNotValidOrderID
  | ErrNotValidOrderCustomerName
  | ErrNotValidOrderItems
  | ErrNotValidIngredientID
  | ErrDuplicateOrderItems
  | ErrNotValidQuantity
  | ErrNotValidStatusField
  | ErrNotValidCreatedAt
  | ErrNotUniqueOrder
  | ErrOrderProductNotFound
  | ErrInventoryItemNotFound
  | ErrNotEnoughInventoryQuantity
  | ErrNoOrder
  | ErrMenuItemNotFound
  deriving DecidableEq, Repr

/-- Modelled from the spec: the persistent state held by the three
repository collaborators (order store, inventory store, menu). -/
structure State where
  orders : List Order
  inventory : List InventoryItem
  menu : List MenuItem
  deriving DecidableEq, Repr

/-- Association-list embedding of a Go `map[string]α`. -/
abbrev SMap (α : Type) := List (String × α)

/-- Go map read: `v, ok := m[k]`. -/
def mapLookup {α : Type} (m : SMap α) (k : String) : Option α :=
  (m.find? (fun p => p.1 = k)).map (fun p => p.2)

/-- Go map write `m[k] = v`: replace the binding if the key is present,
append it otherwise. -/
def mapInsert {α : Type} (m : SMap α) (k : String) (v : α) : SMap α :=
  if m.any (fun p => p.1 = k) then
    m.map (fun p => if p.1 = k then (k, v) else p)
  else
    m ++ [(k, v)]

abbrev InvMap := SMap InventoryItem
abbrev MenuMap := SMap MenuItem

/-- `inventoryMap` construction: `for _, item := range items { m[item.IngredientID] = item }`. -/
def buildInvMap (items : List InventoryItem) : InvMap :=
  items.foldl (fun m it => mapInsert m it.ingredientID it) []

/-- `menuMap` construction: `for _, item := range menuItems { m[item.ID] = item }`. -/
def buildMenuMap (items : List MenuItem) : MenuMap :=
  items.foldl (fun m it => mapInsert m it.id it) []

/-- Go `strings.Contains(s, " ")`: the string has a space character. -/
def hasSpace (s : String) : Bool :=
  s.data.any (fun c => c = ' ')

/-- Equality of `Except` results is decidable when both sides are. -/
instance {ε α : Type} [DecidableEq ε] [DecidableEq α] : DecidableEq (Except ε α) :=
  fun a b =>
    match a, b with
    | .error x, .error y =>
      if h : x = y then .isTrue (by rw [h]) else
        .isFalse (fun hc => h (Except.error.inj hc))
    | .error _, .ok _ => .isFalse (fun hc => Except.noConfusion hc)
    | .ok _, .error _ => .isFalse (fun hc => Except.noConfusion hc)
    | .ok x, .ok y =>
      if h : x = y then .isTrue (by rw [h]) else
        .isFalse (fun hc => h (Except.ok.inj hc))

/-- The check the Go source performs on the item at index `k` of
`ValidateOrderItems`' loop, in source order: empty / whitespace product id,
then duplicate product id at a different index, then quantity below 1. -/
def itemCheck (items : List OrderItem) (k : Nat) (item : OrderItem) :
    Except ServiceError Unit :=
  if item.productID = "" ∨ hasSpace item.productID then
    .error .ErrNotValidIngredientID
  else if items.enum.any (fun p => item.productID = p.2.productID ∧ k ≠ p.1) then
    .error .ErrDuplicateOrderItems
  else if item.quantity < 1 then
    .error .ErrNotValidQuantity
  else
    .ok ()

/-- The indexed loop of `ValidateOrderItems`: first failing item wins. -/
def itemsLoop (items : List OrderItem) : List (Nat × OrderItem) → Except ServiceError Unit
  | [] => .ok ()
  | p :: rest =>
    match itemCheck items p.1 p.2 with
    | .error e => .error e
    | .ok _ => itemsLoop items rest

/-- Go `ValidateOrderItems`. -/
def ValidateOrderItems (items : List OrderItem) : Except ServiceError Unit :=
  if items.length < 1 then .error .ErrNotValidOrderItems
  else itemsLoop items items.enum

/-- Go `ValidateOrder`, checks in source order: whitespace in id, empty
customer name, item validation, the status condition
`o.Status != "" || o.Status == "closed"`, then non-empty `CreatedAt`. -/
def ValidateOrder (o : Order) : Except ServiceError Unit :=
  if hasSpace o.id then .error .ErrNotValidOrderID
  else if o.customerName = "" then .error .ErrNotValidOrderCustomerName
  else
    match ValidateOrderItems o.items with
    | .error e => .error e
    | .ok _ =>
      if o.status ≠ "" ∨ o.status = "closed" then .error .ErrNotValidStatusField
      else if o.createdAt ≠ "" then .error .ErrNotValidCreatedAt
      else .ok ()

/-- Modelled from the spec: order store `getOrder(id) → Order | NotFound`. -/
def GetOrderById (s : State) (id : String) : Option Order :=
  s.orders.find? (fun o => o.id = id)

/-- Modelled from the spec: order store duplicate-id test backing
`createOrder(Order) → success | DuplicateID`. -/
def OrderExists (s : State) (o : Order) : Bool :=
  s.orders.any (fun x => x.id = o.id)

/-- Modelled from the spec: order store `createOrder(Order)` appends the
admitted order. -/
def repoAddOrder (s : State) (o : Order) : State :=
  { s with orders := s.orders ++ [o] }

/-- Modelled from the spec: order store `rewriteOrder(id, Order) → success | NotFound`. -/
def RewriteOrder (s : State) (id : String) (o : Order) : State × Option ServiceError :=
  if s.orders.any (fun x => x.id = id) then
    ({ s with orders := s.orders.map (fun x => if x.id = id then o else x) }, none)
  else (s, some .ErrNoOrder)

/-- Modelled from the spec: menu collaborator `getRecipe(productID) → Recipe | NotFound`. -/
def GetMenuItemById (s : State) (pid : String) : Option MenuItem :=
  s.menu.find? (fun m => m.id = pid)

/-- Modelled from the spec: inventory store bulk overwrite `saveStock`. -/
def SaveItems (s : State) (items : List InventoryItem) : State :=
  { s with inventory := items }

/-- One step of the reservation loop of `IsInventorySufficient`: if the
recipe ingredient has a ledger entry in the map, subtract
`ingredient.Quantity * float64(existingOrderItem.Quantity)` from it;
a missing entry is skipped silently (`if exists { ... }`). -/
def reserveIngredient (q : Int) (m : InvMap) (ing : MenuItemIngredient) : InvMap :=
  match mapLookup m ing.ingredientID with
  | some invItem =>
      mapInsert m ing.ingredientID
        { invItem with quantity := invItem.quantity - ing.quantity * (q : ℚ) }
  | none => m

/-- Reservation over one stored order's line items: each product is looked
up via the menu repository (`GetMenuItemById`), and a lookup failure aborts
the whole check with the repository's error. -/
def reserveItems (s : State) : InvMap → List OrderItem → Except ServiceError InvMap
  | m, [] => .ok m
  | m, it :: rest =>
    match GetMenuItemById s it.productID with
    | none => .error .ErrMenuItemNotFound
    | some mi => reserveItems s (mi.ingredients.foldl (reserveIngredient it.quantity) m) rest

/-- The outer reservation loop of `IsInventorySufficient`: every stored
order is walked, with no filter on its status. -/
def reserveOrders (s : State) : InvMap → List Order → Except ServiceError InvMap
  | m, [] => .ok m
  | m, o :: rest =>
    match reserveItems s m o.items with
    | .error e => .error e
    | .ok m2 => reserveOrders s m2 rest

/-- Candidate-side per-ingredient check of `IsInventorySufficient`: a
missing ledger entry is `ErrInventoryItemNotFound`; otherwise fail iff
`requiredQuantity > inventoryItem.Quantity` (strict). The map is not
updated here — the Go candidate loop only reads it. -/
def checkIngredient (m : InvMap) (q : Int) (ing : MenuItemIngredient) :
    Except ServiceError Unit :=
  match mapLookup m ing.ingredientID with
  | none => .error .ErrInventoryItemNotFound
  | some invItem =>
      if ing.quantity * (q : ℚ) > invItem.quantity then
        .error .ErrNotEnoughInventoryQuantity
      else .ok ()

/-- Iterate `checkIngredient` over a recipe, first failure wins. -/
def checkIngredients (m : InvMap) (q : Int) : List MenuItemIngredient → Except ServiceError Unit
  | [] => .ok ()
  | ing :: rest =>
    match checkIngredient m q ing with
    | .error e => .error e
    | .ok _ => checkIngredients m q rest

/-- Candidate-side per-line-item check: recipe lookup in `menuMap`
(`ErrOrderProductNotFound` when absent), then the ingredient loop. -/
def checkOrderItem (mm : MenuMap) (m : InvMap) (it : OrderItem) :
    Except ServiceError Unit :=
  match mapLookup mm it.productID with
  | none => .error .ErrOrderProductNotFound
  | some mi => checkIngredients m it.quantity mi.ingredients

/-- Candidate loop of `IsInventorySufficient`: note the inventory map is
never decremented between a candidate's own line items. -/
def checkItems (mm : MenuMap) (m : InvMap) : List OrderItem → Except ServiceError Bool
  | [] => .ok true
  | it :: rest =>
    match checkOrderItem mm m it with
    | .error e => .error e
    | .ok _ => checkItems mm m rest

/-- Go `(*orderService).IsInventorySufficient`: build the inventory map,
subtract reservations for every stored order, build the menu map, then
check the candidate line items against the reserved map. Read-only: no
repository write is made on any path. -/
def IsInventorySufficient (s : State) (orderItems : List OrderItem) :
    Except ServiceError Bool :=
  match reserveOrders s (buildInvMap s.inventory) s.orders with
  | .error e => .error e
  | .ok m => checkItems (buildMenuMap s.menu) m orderItems

/-- Deduction loop body of `ReduceIngredients`: unlike the availability
check, the map is decremented in place, so earlier line items reduce what
later ones see. -/
def reduceIngs (q : Int) : InvMap → List MenuItemIngredient → Except ServiceError InvMap
  | m, [] => .ok m
  | m, ing :: rest =>
    match mapLookup m ing.ingredientID with
    | none => .error .ErrInventoryItemNotFound
    | some invItem =>
      if ing.quantity * (q : ℚ) > invItem.quantity then
        .error .ErrNotEnoughInventoryQuantity
      else
        reduceIngs q
          (mapInsert m ing.ingredientID
            { invItem with quantity := invItem.quantity - ing.quantity * (q : ℚ) })
          rest

/-- Per-line-item deduction of `ReduceIngredients`. -/
def reduceItems (mm : MenuMap) : InvMap → List OrderItem → Except ServiceError InvMap
  | m, [] => .ok m
  | m, it :: rest =>
    match mapLookup mm it.productID with
    | none => .error .ErrOrderProductNotFound
    | some mi =>
      match reduceIngs it.quantity m mi.ingredients with
      | .error e => .error e
      | .ok m2 => reduceItems mm m2 rest

/-- Go `(*orderService).ReduceIngredients`: all checks and subtractions
happen on the in-memory map; `SaveItems` persists the whole map only after
every line item succeeded, so an error on any path leaves the stores
untouched. -/
def ReduceIngredients (s : State) (orderItems : List OrderItem) :
    State × Option ServiceError :=
  match reduceItems (buildMenuMap s.menu) (buildInvMap s.inventory) orderItems with
  | .error e => (s, some e)
  | .ok m => (SaveItems s (m.map (fun p => p.2)), none)

/-- Go `(*orderService).AddOrder`, checks in source order: duplicate id,
then `IsInventorySufficient`, then `ValidateOrder`, then stamp
`Status = "Open"` and `CreatedAt = now` and persist. `now` stands for the
`time.Now()` timestamp string. -/
def AddOrder (s : State) (now : String) (order : Order) : State × Option ServiceError :=
  if OrderExists s order then (s, some .ErrNotUniqueOrder)
  else
    match IsInventorySufficient s order.items with
    | .error e => (s, some e)
    | .ok _ =>
      match ValidateOrder order with
      | .error e => (s, some e)
      | .ok _ =>
        (repoAddOrder s { order with status := "Open", createdAt := now }, none)

/-- Go `(*orderService).UpdateOrder`: validate, default the id from the
path parameter, force `Status = "Open"`, rewrite. No status check on the
stored order and no stock-sufficiency check. -/
def UpdateOrder (s : State) (id : String) (order : Order) : State × Option ServiceError :=
  match ValidateOrder order with
  | .error e => (s, some e)
  | .ok _ =>
    RewriteOrder s id
      { (if order.id = "" then { order with id := id } else order) with status := "Open" }

/-- Go `(*orderService).CloseOrder`: load the order, deduct its
ingredients, set `Status = "closed"`, rewrite. No check that the order is
still open. -/
def CloseOrder (s : State) (id : String) : State × Option ServiceError :=
  match GetOrderById s id with
  | none => (s, some .ErrNoOrder)
  | some order =>
    match ReduceIngredients s order.items with
    | (s1, some e) => (s1, some e)
    | (s1, none) => RewriteOrder s1 id { order with status := "closed" }

/-- Specification-side measure (from the spec's invariant, not from the
source): total quantity of ingredient `ing` required by the line items of
all orders whose status is `"Open"`, with `quantityPerUnit × quantity`
summed over each order's recipe references; products without a recipe
contribute nothing. -/
def openRequired (menu : List MenuItem) (orders : List Order) (ing : String) : ℚ :=
  ((orders.filter (fun o => o.status = "Open")).map (fun o =>
    (o.items.map (fun it =>
      match menu.find? (fun m => m.id = it.productID) with
      | none => 0
      | some mi =>
        ((mi.ingredients.filter (fun g => g.ingredientID = ing)).map
          (fun g => g.quantity * (it.quantity : ℚ))).sum)).sum)).sum

/-- Ledger quantity of an ingredient in an inventory list (0 if absent);
used only to state spec-side invariants. -/
def ledgerQty (inv : List InventoryItem) (ing : String) : ℚ :=
  match inv.find? (fun it => it.ingredientID = ing) with
  | none => 0
  | some it => it.quantity

/-! Concrete stores and orders used as inputs of the claim theorems. -/

/-- Ledger with 100 of ingredient `X`; two products `A` and `B` each
requiring 60 of `X`; no stored orders. -/
def c1s0 : State :=
  { orders := [], inventory := [⟨"X", 100, "g"⟩],
    menu := [⟨"A", [⟨"X", 60⟩]⟩, ⟨"B", [⟨"X", 60⟩]⟩] }

/-- Candidate order whose two line items jointly require 120 of `X`. -/
def c1cand : Order := ⟨"o1", "alice", [⟨"A", 1⟩, ⟨"B", 1⟩], "", ""⟩

/-- One Open order `latte × 1` against a 100-unit beans ledger
(`latte` requires 20 beans per unit). -/
def c2s : State :=
  { orders := [⟨"o1", "bob", [⟨"latte", 1⟩], "Open", "t"⟩],
    inventory := [⟨"beans", 100, "g"⟩],
    menu := [⟨"latte", [⟨"beans", 20⟩]⟩] }

/-- A store holding one already-Closed order. -/
def c3s : State :=
  { orders := [⟨"o1", "bob", [⟨"latte", 1⟩], "closed", "t"⟩],
    inventory := [⟨"beans", 100, "g"⟩],
    menu := [⟨"latte", [⟨"beans", 20⟩]⟩] }

/-- A structurally valid replacement order sent to `UpdateOrder`. -/
def c3new : Order := ⟨"", "carol", [⟨"latte", 2⟩], "", ""⟩

/-- A store whose only order is Closed and whose recipe needs 60 of the
100 beans in the ledger. -/
def c4s : State :=
  { orders := [⟨"o1", "bob", [⟨"latte", 1⟩], "closed", "t"⟩],
    inventory := [⟨"beans", 100, "g"⟩],
    menu := [⟨"latte", [⟨"beans", 60⟩]⟩] }

/-- A store with an empty menu: every candidate product is unknown. -/
def c5s : State := { orders := [], inventory := [⟨"beans", 100, "g"⟩], menu := [] }

/-- Structurally malformed candidate: empty customer name. -/
def c5bad : Order := ⟨"o1", "", [⟨"latte", 1⟩], "", ""⟩

/-- The spec's boundary example: ledger beans = 100, `latte` needs 20 per
unit, one Open order `latte × 3` (60 reserved). -/
def c6s : State :=
  { orders := [⟨"o1", "bob", [⟨"latte", 3⟩], "Open", "t"⟩],
    inventory := [⟨"beans", 100, "g"⟩],
    menu := [⟨"latte", [⟨"beans", 20⟩]⟩] }

/-- A store used for the atomicity witnesses. -/
def c7s : State :=
  { orders := [⟨"o1", "bob", [⟨"latte", 9⟩], "Open", "t"⟩],
    inventory := [⟨"beans", 100, "g"⟩],
    menu := [⟨"latte", [⟨"beans", 20⟩]⟩] }

/-- Menu without product `ghost`. -/
def c8s1 : State :=
  { orders := [], inventory := [⟨"beans", 100, "g"⟩],
    menu := [⟨"latte", [⟨"beans", 20⟩]⟩] }

/-- Empty ledger, recipe requiring 0 beans: a zero-availability reading
would admit, the hard-failure reading must reject. -/
def c8s2 : State :=
  { orders := [], inventory := [], menu := [⟨"latte", [⟨"beans", 0⟩]⟩] }

/-- Store with an Open order but an empty ledger and an empty menu: the
edited content of an update could never be admitted here. -/
def c9s : State :=
  { orders := [⟨"o1", "bob", [⟨"latte", 1⟩], "Open", "t"⟩], inventory := [], menu := [] }

/-- Structurally valid replacement content for the update. -/
def c9o : Order := ⟨"", "dana", [⟨"latte", 5⟩], "", ""⟩

/-- Menu where `mocha` references ingredient `syrup` that has no ledger
entry, while `latte` is fully stocked. -/
def c10menu : List MenuItem := [⟨"mocha", [⟨"syrup", 5⟩]⟩, ⟨"latte", [⟨"beans", 20⟩]⟩]

/-- The dangling `syrup` reference sits in a stored order. -/
def c10sA : State :=
  { orders := [⟨"o1", "bob", [⟨"mocha", 1⟩], "Open", "t"⟩],
    inventory := [⟨"beans", 100, "g"⟩], menu := c10menu }

/-- The same dangling `syrup` reference sits in the candidate. -/
def c10sB : State :=
  { orders := [], inventory := [⟨"beans", 100, "g"⟩], menu := c10menu }

/-! Helper lemmas. -/

/-- `ReduceIngredients` either fails with the input state untouched or
succeeds: the only repository write (`SaveItems`) is on the success path. -/
theorem reduceIngredients_fst_or (s : State) (items : List OrderItem) :
    (ReduceIngredients s items).1 = s ∨ (ReduceIngredients s items).2 = none := by
  unfold ReduceIngredients
  rcases h : reduceItems (buildMenuMap s.menu) (buildInvMap s.inventory) items with e | m <;>
    simp

/-- `ReduceIngredients` never touches the order store. -/
theorem reduceIngredients_orders_eq (s : State) (items : List OrderItem) :
    ((ReduceIngredients s items).1).orders = s.orders := by
  unfold ReduceIngredients
  rcases h : reduceItems (buildMenuMap s.menu) (buildInvMap s.inventory) items with e | m <;>
    simp [SaveItems]

/-- `AddOrder` either fails with the state untouched or succeeds. -/
theorem addOrder_fst_or (s : State) (now : String) (o : Order) :
    (AddOrder s now o).1 = s ∨ (AddOrder s now o).2 = none := by
  unfold AddOrder
  by_cases hex : OrderExists s o
  · simp [hex]
  · rcases hin : IsInventorySufficient s o.items with e | b
    · simp [hex, hin]
    · rcases hv : ValidateOrder o with e | u
      · simp [hex, hin, hv]
      · simp [hex, hin, hv]

/-- A successful `find?` over the orders means the `any` test used by the
rewrite operation is true. -/
theorem find?_orders_any (l : List Order) (p : Order → Bool) (a : Order)
    (h : l.find? p = some a) : l.any p = true :=
  List.any_eq_true.mpr ⟨a, List.mem_of_find?_eq_some h, List.find?_some h⟩

/-- `CloseOrder` either fails with the state untouched or succeeds: the
rewrite of the loaded order cannot fail, since the deduction step does not
change the order store. -/
theorem closeOrder_fst_or (s : State) (id : String) :
    (CloseOrder s id).1 = s ∨ (CloseOrder s id).2 = none := by
  unfold CloseOrder
  rcases hg : GetOrderById s id with _ | o
  · simp
  · dsimp only
    rcases hr : ReduceIngredients s o.items with ⟨s1, oe⟩
    rcases oe with _ | e
    · right
      have horders : s1.orders = s.orders := by
        have h2 := reduceIngredients_orders_eq s o.items
        rw [hr] at h2
        exact h2
      have hany : s.orders.any (fun x => x.id = id) = true :=
        find?_orders_any s.orders (fun x => x.id = id) o hg
      have hex : ∃ x ∈ s.orders, x.id = id := by
        rw [List.any_eq_true] at hany
        rcases hany with ⟨x, hx, hpx⟩
        exact ⟨x, hx, by simpa using hpx⟩
      simp [RewriteOrder, horders, hex]
    · left
      have h1 : (ReduceIngredients s o.items).1 = s := by
        rcases reduceIngredients_fst_or s o.items with h1 | h1
        · exact h1
        · rw [hr] at h1
          exact Option.noConfusion h1
      rw [hr] at h1
      exact h1

/-- C7: rejection is atomic. If the inventory deduction, the admission
path of create, or a close fails with any error, the returned repository
state (inventory ledger and order store alike) is exactly the input state:
no partial deduction is ever saved and a failed close leaves the order
untouched. -/
theorem failure_leaves_state_unchanged :
    (∀ (s : State) (items : List OrderItem) (e : ServiceError),
        (ReduceIngredients s items).2 = some e → (ReduceIngredients s items).1 = s) ∧
    (∀ (s : State) (now : String) (o : Order) (e : ServiceError),
        (AddOrder s now o).2 = some e → (AddOrder s now o).1 = s) ∧
    (∀ (s : State) (id : String) (e : ServiceError),
        (CloseOrder s id).2 = some e → (CloseOrder s id).1 = s) := by
  refine ⟨fun s items e h => ?_, fun s now o e h => ?_, fun s id e h => ?_⟩
  · rcases reduceIngredients_fst_or s items with h1 | h1
    · exact h1
    · rw [h1] at h
      exact Option.noConfusion h
  · rcases addOrder_fst_or s now o with h1 | h1
    · exact h1
    · rw [h1] at h
      exact Option.noConfusion h
  · rcases closeOrder_fst_or s id with h1 | h1
    · exact h1
    · rw [h1] at h
      exact Option.noConfusion h

/-- Instantiation of the atomicity theorem on concrete failing calls: a
deduction hitting an unknown product, a create with a duplicate id, and a
close of an unknown order all leave the store `c7s` unchanged. -/
theorem failure_leaves_state_unchanged_witness :
    (ReduceIngredients c7s [⟨"ghost", 1⟩]).1 = c7s ∧
    (AddOrder c7s "t" ⟨"o1", "x", [⟨"latte", 1⟩], "", ""⟩).1 = c7s ∧
    (CloseOrder c7s "nope").1 = c7s :=
  ⟨failure_leaves_state_unchanged.1 c7s [⟨"ghost", 1⟩] .ErrOrderProductNotFound (by decide),
   failure_leaves_state_unchanged.2.1 c7s "t" ⟨"o1", "x", [⟨"latte", 1⟩], "", ""⟩
     .ErrNotUniqueOrder (by decide),
   failure_leaves_state_unchanged.2.2 c7s "nope" .ErrNoOrder (by decide)⟩

/-- C1: the availability check never accumulates the candidate order's own
line items, so an order whose items jointly require 120 of ingredient `X`
is admitted against a ledger of 100: after the successful admission the
total requirement of the Open orders (120) exceeds the initial ledger
quantity (100), violating the claimed invariant. -/
theorem addOrder_admits_jointly_excessive_order :
    (AddOrder c1s0 "t0" c1cand).2 = none ∧
    ledgerQty c1s0.inventory "X" = 100 ∧
    openRequired ((AddOrder c1s0 "t0" c1cand).1).menu
      ((AddOrder c1s0 "t0" c1cand).1).orders "X" = 120 ∧
    ¬ ((120 : ℚ) ≤ 100) := by
  refine ⟨?_, by decide, ?_, by norm_num⟩
  · simp [AddOrder, c1s0, c1cand, OrderExists, IsInventorySufficient, reserveOrders,
      reserveItems, reserveIngredient, buildInvMap, buildMenuMap, mapLookup, mapInsert,
      checkItems, checkOrderItem, checkIngredients, checkIngredient, ValidateOrder,
      ValidateOrderItems, itemsLoop, itemCheck, hasSpace, GetMenuItemById, repoAddOrder,
      List.find?, List.foldl, List.any, List.enum, List.enumFrom] <;> norm_num
  · simp [AddOrder, c1s0, c1cand, OrderExists, IsInventorySufficient, reserveOrders,
      reserveItems, reserveIngredient, buildInvMap, buildMenuMap, mapLookup, mapInsert,
      checkItems, checkOrderItem, checkIngredients, checkIngredient, ValidateOrder,
      ValidateOrderItems, itemsLoop, itemCheck, hasSpace, GetMenuItemById, repoAddOrder,
      openRequired, List.find?, List.foldl, List.any, List.enum, List.enumFrom,
      List.filter, List.map, List.sum, List.foldr] <;> norm_num

/-- C2: `CloseOrder` has no already-closed guard. Closing `o1` once
deducts the ledger to 80 and stores the order as closed; closing it again
returns success (not an already-closed failure) and deducts the ledger a
second time, down to 60. -/
theorem closeOrder_double_deduction :
    (CloseOrder c2s "o1").2 = none ∧
    ((CloseOrder c2s "o1").1).inventory = [⟨"beans", 80, "g"⟩] ∧
    GetOrderById (CloseOrder c2s "o1").1 "o1" =
      some ⟨"o1", "bob", [⟨"latte", 1⟩], "closed", "t"⟩ ∧
    (CloseOrder ((CloseOrder c2s "o1").1) "o1").2 = none ∧
    ((CloseOrder ((CloseOrder c2s "o1").1) "o1").1).inventory = [⟨"beans", 60, "g"⟩] := by
  refine ⟨?_, ?_, ?_, ?_, ?_⟩ <;>
    simp [CloseOrder, c2s, GetOrderById, ReduceIngredients, reduceItems, reduceIngs,
      buildInvMap, buildMenuMap, mapLookup, mapInsert, SaveItems, RewriteOrder,
      List.find?, List.foldl, List.any, List.map] <;> norm_num

/-- C3: `UpdateOrder` never checks the stored order's status: the Closed
order `o1` is rewritten wholesale and its status is reset to Open. -/
theorem updateOrder_mutates_closed_order :
    GetOrderById c3s "o1" = some ⟨"o1", "bob", [⟨"latte", 1⟩], "closed", "t"⟩ ∧
    (UpdateOrder c3s "o1" c3new).2 = none ∧
    GetOrderById (UpdateOrder c3s "o1" c3new).1 "o1" =
      some ⟨"o1", "carol", [⟨"latte", 2⟩], "Open", ""⟩ := by decide

/-- C4: the reservation loop of `IsInventorySufficient` iterates every
stored order with no status filter. Store `c4s` has no Open order (its
only order is Closed), so the claimed reservation is 0 and the ledger
(100) covers the candidate requirement (60); yet the check rejects the
candidate, and admits it once the Closed order is removed. -/
theorem reservation_counts_closed_orders :
    c4s.orders.filter (fun o => o.status = "Open") = [] ∧
    openRequired c4s.menu c4s.orders "beans" = 0 ∧
    ledgerQty c4s.inventory "beans" = 100 ∧
    IsInventorySufficient c4s [⟨"latte", 1⟩] = .error .ErrNotEnoughInventoryQuantity ∧
    IsInventorySufficient { c4s with orders := [] } [⟨"latte", 1⟩] = .ok true := by
  refine ⟨by decide, by decide, by decide, ?_, ?_⟩ <;>
    simp [IsInventorySufficient, c4s, reserveOrders, reserveItems, reserveIngredient,
      buildInvMap, buildMenuMap, mapLookup, mapInsert, checkItems, checkOrderItem,
      checkIngredients, checkIngredient, GetMenuItemById,
      List.find?, List.foldl, List.any] <;> norm_num

/-- C5 counterexample: the candidate `c5bad` is structurally malformed
(`ValidateOrder` rejects its empty customer name), yet create returns the
availability-check error `ErrOrderProductNotFound` for it, because
`AddOrder` runs `IsInventorySufficient` before `ValidateOrder`. -/
theorem addOrder_validation_after_availability_cex :
    ValidateOrder c5bad = .error .ErrNotValidOrderCustomerName ∧
    (AddOrder c5s "t" c5bad).2 = some .ErrOrderProductNotFound := by decide

/-- C5 amended: in `AddOrder` the availability check runs before the
structural validation. After the duplicate-id guard, an availability
error is returned as is (even for a structurally malformed order), and a
validation error is reported only when the availability check passed. -/
theorem addOrder_availability_before_validation (s : State) (now : String) (o : Order)
    (hex : OrderExists s o = false) :
    (∀ e, IsInventorySufficient s o.items = .error e → AddOrder s now o = (s, some e)) ∧
    (∀ b e, IsInventorySufficient s o.items = .ok b → ValidateOrder o = .error e →
        AddOrder s now o = (s, some e)) := by
  constructor
  · intro e hin
    simp [AddOrder, hex, hin]
  · intro b e hin hv
    simp [AddOrder, hex, hin, hv]

/-- The amended create ordering applied to the concrete malformed order:
its availability error is what create reports. -/
theorem addOrder_availability_before_validation_witness :
    AddOrder c5s "t" c5bad = (c5s, some .ErrOrderProductNotFound) :=
  (addOrder_availability_before_validation c5s "t" c5bad (by decide)).1
    .ErrOrderProductNotFound (by decide)

/-- C6: the admission comparison is strict. For any ledger entry found for
the ingredient, the per-ingredient check fails with the insufficiency
error exactly when `required > available`, and succeeds at the boundary
`required = available`; on the spec's example store, `latte × 2`
(40 required, 40 available) is admitted and `latte × 3` is rejected. -/
theorem availability_comparison_strict :
    (∀ (m : InvMap) (q : Int) (ing : MenuItemIngredient) (item : InventoryItem),
        mapLookup m ing.ingredientID = some item →
        ((checkIngredient m q ing = .error .ErrNotEnoughInventoryQuantity ↔
            ing.quantity * (q : ℚ) > item.quantity) ∧
          (ing.quantity * (q : ℚ) ≤ item.quantity → checkIngredient m q ing = .ok ()))) ∧
    IsInventorySufficient c6s [⟨"latte", 2⟩] = .ok true ∧
    IsInventorySufficient c6s [⟨"latte", 3⟩] = .error .ErrNotEnoughInventoryQuantity := by
  refine ⟨?_, ?_, ?_⟩
  · intro m q ing item h
    refine ⟨⟨fun he => ?_, fun hc => ?_⟩, fun hle => ?_⟩
    · by_contra hc
      simp [checkIngredient, h, hc] at he
    · simp [checkIngredient, h, hc]
    · simp [checkIngredient, h, not_lt.mpr hle]
  · simp [IsInventorySufficient, c6s, reserveOrders, reserveItems, reserveIngredient,
      buildInvMap, buildMenuMap, mapLookup, mapInsert, checkItems, checkOrderItem,
      checkIngredients, checkIngredient, GetMenuItemById,
      List.find?, List.foldl, List.any] <;> norm_num
  · simp [IsInventorySufficient, c6s, reserveOrders, reserveItems, reserveIngredient,
      buildInvMap, buildMenuMap, mapLookup, mapInsert, checkItems, checkOrderItem,
      checkIngredients, checkIngredient, GetMenuItemById,
      List.find?, List.foldl, List.any] <;> norm_num

/-- The strict comparison instantiated at the spec's boundary numbers:
20 per unit × 2 units = 40 required against exactly 40 available
succeeds. -/
theorem availability_comparison_strict_witness :
    checkIngredient [("beans", ⟨"beans", 40, "g"⟩)] 2 ⟨"beans", 20⟩ = .ok () :=
  (availability_comparison_strict.1 [("beans", ⟨"beans", 40, "g"⟩)] 2 ⟨"beans", 20⟩
    ⟨"beans", 40, "g"⟩ (by decide)).2 (by norm_num)

/-- A failing line item anywhere in the candidate list makes the whole
candidate loop fail (with the first error encountered, not necessarily
this item's own). -/
theorem checkItems_mem_error (mm : MenuMap) (m : InvMap) (it : OrderItem)
    (items : List OrderItem) (hmem : it ∈ items) (e : ServiceError)
    (he : checkOrderItem mm m it = .error e) :
    ∃ e2, checkItems mm m items = .error e2 := by
  induction items with
  | nil => cases hmem
  | cons a rest ih =>
    rcases List.mem_cons.mp hmem with h | h
    · subst h
      exact ⟨e, by simp only [checkItems, he]⟩
    · rcases hc : checkOrderItem mm m a with e1 | u
      · exact ⟨e1, by simp only [checkItems, hc]⟩
      · rcases ih h with ⟨e2, h2⟩
        exact ⟨e2, by simp only [checkItems, hc]; exact h2⟩

/-- C8: in the candidate phase, a line item whose product is not in the
menu map fails with `ErrOrderProductNotFound`, and a recipe ingredient
missing from the inventory map fails with `ErrInventoryItemNotFound`
before any quantity is compared; a candidate containing an unknown
product is never admitted, whatever the stores hold; end to end, an
unknown product is rejected, and a missing ledger entry is rejected even
when the recipe requires 0 of it (which a zero-availability reading would
admit). -/
theorem missing_refs_hard_failures :
    (∀ (mm : MenuMap) (m : InvMap) (it : OrderItem),
        mapLookup mm it.productID = none →
        checkOrderItem mm m it = .error .ErrOrderProductNotFound) ∧
    (∀ (m : InvMap) (q : Int) (ing : MenuItemIngredient),
        mapLookup m ing.ingredientID = none →
        checkIngredient m q ing = .error .ErrInventoryItemNotFound) ∧
    (∀ (s : State) (items : List OrderItem) (it : OrderItem),
        it ∈ items → mapLookup (buildMenuMap s.menu) it.productID = none →
        ∀ b, IsInventorySufficient s items ≠ .ok b) ∧
    IsInventorySufficient c8s1 [⟨"ghost", 1⟩] = .error .ErrOrderProductNotFound ∧
    IsInventorySufficient c8s2 [⟨"latte", 1⟩] = .error .ErrInventoryItemNotFound := by
  refine ⟨fun mm m it h => ?_, fun m q ing h => ?_,
    fun s items it hmem hnone b hok => ?_, by decide, by decide⟩
  · simp [checkOrderItem, h]
  · simp [checkIngredient, h]
  · unfold IsInventorySufficient at hok
    rcases hro : reserveOrders s (buildInvMap s.inventory) s.orders with e | m
    · rw [hro] at hok
      exact Except.noConfusion hok
    · rw [hro] at hok
      dsimp only at hok
      rcases checkItems_mem_error (buildMenuMap s.menu) m it items hmem
          .ErrOrderProductNotFound (by simp [checkOrderItem, hnone]) with ⟨e2, h2⟩
      rw [h2] at hok
      exact Except.noConfusion hok

/-- The hard-failure lemmas instantiated on empty maps, and the
never-admitted lemma instantiated on the `ghost` candidate. -/
theorem missing_refs_hard_failures_witness :
    checkOrderItem [] [] ⟨"x", 1⟩ = .error .ErrOrderProductNotFound ∧
    checkIngredient [] 1 ⟨"y", 5⟩ = .error .ErrInventoryItemNotFound ∧
    IsInventorySufficient c8s1 [⟨"ghost", 1⟩] ≠ .ok true :=
  ⟨missing_refs_hard_failures.1 [] [] ⟨"x", 1⟩ (by decide),
   missing_refs_hard_failures.2.1 [] 1 ⟨"y", 5⟩ (by decide),
   missing_refs_hard_failures.2.2.1 c8s1 [⟨"ghost", 1⟩] ⟨"ghost", 1⟩ (by decide)
     (by decide) true⟩

/-- C9: `UpdateOrder` reports exactly the structural validation errors of
`ValidateOrder` (the validation used by create), and on a structurally
valid order whose id is stored it succeeds and leaves the inventory
ledger (and the menu) untouched, whatever their contents: no
stock-sufficiency check runs. -/
theorem updateOrder_validates_and_skips_stock (s : State) (id : String) (o : Order) :
    (∀ e, ValidateOrder o = .error e → UpdateOrder s id o = (s, some e)) ∧
    (ValidateOrder o = .ok () → s.orders.any (fun x => x.id = id) = true →
      (UpdateOrder s id o).2 = none ∧
      ((UpdateOrder s id o).1).inventory = s.inventory ∧
      ((UpdateOrder s id o).1).menu = s.menu) := by
  constructor
  · intro e he
    simp [UpdateOrder, he]
  · intro hok hany
    have hex : ∃ x ∈ s.orders, x.id = id := by
      rw [List.any_eq_true] at hany
      rcases hany with ⟨x, hx, hpx⟩
      exact ⟨x, hx, by simpa using hpx⟩
    simp [UpdateOrder, hok, RewriteOrder, hex]

/-- The update theorem applied to a store with an empty ledger and an
empty menu: the edited content (`latte × 5`) could never be admitted
there, yet the update succeeds and the ledger stays empty. -/
theorem updateOrder_validates_and_skips_stock_witness :
    (UpdateOrder c9s "o1" c9o).2 = none ∧
    ((UpdateOrder c9s "o1" c9o).1).inventory = c9s.inventory ∧
    ((UpdateOrder c9s "o1" c9o).1).menu = c9s.menu :=
  (updateOrder_validates_and_skips_stock c9s "o1" c9o).2 (by decide) (by decide)

/-- C10: a recipe ingredient with no ledger entry is skipped silently by
the reservation phase (`reserveIngredient` returns the map unchanged),
but is a hard failure in the candidate phase: with the dangling `syrup`
reference inside a stored order the check admits the candidate, while the
same reference inside the candidate itself is rejected with
`ErrInventoryItemNotFound`. -/
theorem dangling_reference_asymmetry :
    (∀ (q : Int) (m : InvMap) (ing : MenuItemIngredient),
        mapLookup m ing.ingredientID = none → reserveIngredient q m ing = m) ∧
    IsInventorySufficient c10sA [⟨"latte", 1⟩] = .ok true ∧
    IsInventorySufficient c10sB [⟨"mocha", 1⟩] = .error .ErrInventoryItemNotFound := by
  refine ⟨fun q m ing h => ?_, ?_, by decide⟩
  · simp [reserveIngredient, h]
  · simp [IsInventorySufficient, c10sA, c10menu, reserveOrders, reserveItems,
      reserveIngredient, buildInvMap, buildMenuMap, mapLookup, mapInsert, checkItems,
      checkOrderItem, checkIngredients, checkIngredient, GetMenuItemById,
      List.find?, List.foldl, List.any] <;> norm_num

/-- The silent-skip lemma instantiated on an empty inventory map. -/
theorem dangling_reference_asymmetry_witness :
    reserveIngredient 1 [] ⟨"z", 2⟩ = [] :=
  dangling_reference_asymmetry.1 1 [] ⟨"z", 2⟩ (by decide)
